import Mathlib

/-!
Shallow embedding of `Lib/signal/splinemodule.c` (the `spline` extension
module of scipy-cwt): the wrapper entry points `cspline2d`, `qspline2d`,
`FIRsepsym2d` (exported as `sepfir2d`), `IIRsymorder1` (exported as
`symiirorder1`) and `IIRsymorder2` (exported as `symiirorder2`), together
with the helper `convert_strides`.

The numeric core routines (`S_cubic_spline2D`, `D_IIR_forback1`,
`S_separable_2Dconvolve_mirror`, ...) are not among the provided sources;
each wrapper model therefore takes the core as an abstract parameter
mapping the exact invocation record (which C routine, with which scalar
arguments, strides and precision) to the integer status the routine
returns.  Everything the wrapper itself does -- type promotion and
capping, stride conversion, precision defaulting, dispatch, and the
mapping from status codes to Python-level errors -- is translated
faithfully from the C source.

C `double` scalars (`lambda`, `precision`, `c0`, `z1`, `r`, `omega`) are
modelled as rationals: the claims under verification are about control
flow (which branch runs, which constant is substituted), not about
floating-point rounding.
-/

namespace SplineModule

/- Type numbers from `enum PyArray_TYPES` in Numeric's `arrayobject.h`:
   CHAR=0, UBYTE=1, SBYTE=2, SHORT=3, INT=4, LONG=5, FLOAT=6, DOUBLE=7,
   CFLOAT=8, CDOUBLE=9, OBJECT=10. -/

def PyArray_FLOAT : Nat := 6

def PyArray_DOUBLE : Nat := 7

def PyArray_CFLOAT : Nat := 8

def PyArray_CDOUBLE : Nat := 9

/-- The four element types admitted by the spec's data model (spec section 3). -/
inductive ElemType where
  | float32
  | float64
  | complex64
  | complex128
deriving DecidableEq

def ElemType.typeNum : ElemType → Nat
  | .float32 => PyArray_FLOAT
  | .float64 => PyArray_DOUBLE
  | .complex64 => PyArray_CFLOAT
  | .complex128 => PyArray_CDOUBLE

/-- `descr->elsize` (bytes per element) for the Numeric type numbers the
wrappers can produce.  Other type numbers never reach `convert_strides`
in the wrappers modelled here. -/
def elsize (t : Nat) : Nat :=
  if t = PyArray_FLOAT then 4
  else if t = PyArray_DOUBLE then 8
  else if t = PyArray_CFLOAT then 8
  else if t = PyArray_CDOUBLE then 16
  else 1

/-- Modelled external (Numeric C API): for an array operand whose type
number is one of the numeric types, `PyArray_ObjectType(op, min)` returns
the promotion of the operand's type number with the requested minimum. -/
def PyArray_ObjectType (t mintype : Nat) : Nat := max t mintype

/-- `#define MIN(a,b) (((a) > (b)) ? (b) : (a))` (splinemodule.c line 15). -/
def cMIN (a b : Nat) : Nat := if a > b then b else a

/-- The `while` loop of `convert_strides` (lines 26-31):
`bitshift = -1; while (size != 0) \x7b size >>= 1; bitshift++; \x7d`. -/
def bitshiftLoop (size : Nat) (bitshift : Int) : Int :=
  if h : size = 0 then bitshift else bitshiftLoop (size / 2) (bitshift + 1)
termination_by size
decreasing_by exact Nat.div_lt_self (Nat.pos_of_ne_zero h) (by norm_num)

/-- The value the loop leaves in `bitshift` for a given element size. -/
def c_bitshift (size : Nat) : Int := bitshiftLoop size (-1)

/-- GCC's arithmetic right shift of a (possibly negative) `int` by `k`
bits: floor division by `2^k`.  (For `size = 0` the C code would shift by
`-1`, which is undefined; the model's `Int.toNat` clamps that case to a
shift by 0 and no claim depends on it.) -/
def sar (s : Int) (k : Nat) : Int := Int.fdiv s (2 ^ k)

/-- One entry of the `for` loop body (line 33):
`convstrides[n] = instrides[n] >> (int) bitshift;`. -/
def convert_stride1 (s : Int) (size : Nat) : Int := sar s (c_bitshift size).toNat

/-- `convert_strides(instrides, convstrides, size, N)` (lines 18-35),
applied to the `N` input byte strides. -/
def convert_strides (instrides : List Int) (size : Nat) : List Int :=
  instrides.map (fun s => convert_stride1 s size)

/-- Observable outcome of one wrapper call: either a Python exception
with the exact `PYERR` message, or a returned array described by its
rank, dimensions, type number and element strides.  A returned array is
always freshly allocated by `PyArray_FromDims`, so the model records the
shape/type metadata that call received. -/
inductive CallResult where
  | pyerr (msg : String)
  | ok (nd : Nat) (dims : List Nat) (typeNum : Nat) (outstrides : List Int)
deriving DecidableEq

/-- Is a Numeric type number one of the complex types? -/
def isComplexNum (t : Nat) : Bool := t = PyArray_CFLOAT || t = PyArray_CDOUBLE

/- ------------------------------------------------------------------ -/
/- cspline2d (lines 40-85) and qspline2d (lines 89-136)               -/
/- ------------------------------------------------------------------ -/

/-- Lines 51-52: `thetype = PyArray_ObjectType(image, PyArray_FLOAT);
thetype = MIN(thetype, PyArray_DOUBLE);` -/
def cspline2d_thetype (t : ElemType) : Nat :=
  cMIN (PyArray_ObjectType t.typeNum PyArray_FLOAT) PyArray_DOUBLE

/-- Lines 102-103 (qspline2d): identical promotion capped at `PyArray_DOUBLE`. -/
def qspline2d_thetype (t : ElemType) : Nat :=
  cMIN (PyArray_ObjectType t.typeNum PyArray_FLOAT) PyArray_DOUBLE

/-- Invocation record for the 2-D spline cores: `.S` is the
single-precision routine (`S_cubic_spline2D` / `S_quadratic_spline2D`),
`.D` the double-precision one; the fields are the scalar and stride
arguments the wrapper passes. -/
inductive Spline2DCore where
  | S (lambda : ℚ) (M N : Nat) (instrides outstrides : List Int) (precision : ℚ)
  | D (lambda : ℚ) (M N : Nat) (instrides outstrides : List Int) (precision : ℚ)
deriving DecidableEq

/-- The smoothing parameter the core receives. -/
def Spline2DCore.lambda : Spline2DCore → ℚ
  | .S lam _ _ _ _ _ => lam
  | .D lam _ _ _ _ _ => lam

/-- The precision argument the core receives. -/
def Spline2DCore.precision : Spline2DCore → ℚ
  | .S _ _ _ _ _ p => p
  | .D _ _ _ _ _ p => p

/-- Lines 65-72 of `cspline2d`: choose the core routine by `thetype` and
substitute the default precision when the supplied one is outside
`(0, 1]`.  `thetype` is provably `PyArray_FLOAT` or `PyArray_DOUBLE`
here (lines 51-52), so the `else` branch is the `PyArray_DOUBLE` case. -/
def cspline2d_invoke (thetype : Nat) (lambda : ℚ) (M N : Nat)
    (instrides outstrides : List Int) (precision : ℚ) : Spline2DCore :=
  if thetype = PyArray_FLOAT then
    .S lambda M N instrides outstrides
      (if precision ≤ 0 ∨ 1 < precision then 1/1000 else precision)
  else
    .D lambda M N instrides outstrides
      (if precision ≤ 0 ∨ 1 < precision then 1/1000000 else precision)

/-- Lines 116-123 of `qspline2d`: same structure, dispatching to
`S_quadratic_spline2D` / `D_quadratic_spline2D`. -/
def qspline2d_invoke (thetype : Nat) (lambda : ℚ) (M N : Nat)
    (instrides outstrides : List Int) (precision : ℚ) : Spline2DCore :=
  if thetype = PyArray_FLOAT then
    .S lambda M N instrides outstrides
      (if precision ≤ 0 ∨ 1 < precision then 1/1000 else precision)
  else
    .D lambda M N instrides outstrides
      (if precision ≤ 0 ∨ 1 < precision then 1/1000000 else precision)

/-- `cspline2d(input, lambda=0.0, precision=-1.0)` (lines 40-85) on an
image of element type `t` with shape `M x N` whose coerced array has
byte strides `strideBytes`.  `core` abstracts the external
`S_/D_cubic_spline2D` routine as a map from the invocation record to the
returned status.  The pair's second component records the core
invocation the wrapper performed (`none` would mean the core never ran;
`cspline2d` has no guard, so it always runs). -/
def cspline2d (t : ElemType) (M N : Nat) (strideBytes : List Int)
    (lambda precision : ℚ) (core : Spline2DCore → Int) :
    CallResult × Option Spline2DCore :=
  let thetype := cspline2d_thetype t
  let instrides := convert_strides strideBytes (elsize thetype)
  let outstrides : List Int := [(N : Int), 1]
  let inv := cspline2d_invoke thetype lambda M N instrides outstrides precision
  let retval := core inv
  if retval = -3 then
    (.pyerr "Precision too high.  Error did not converge.", some inv)
  else if retval < 0 then
    (.pyerr "Problem occured inside routine", some inv)
  else
    (.ok 2 [M, N] thetype outstrides, some inv)

/-- `qspline2d(input, lambda=0.0, precision=-1.0)` (lines 89-136).  The
guard at line 100 (`if (lambda != 0.0) PYERR(...)`) runs before type
promotion, coercion, output allocation and the core call. -/
def qspline2d (t : ElemType) (M N : Nat) (strideBytes : List Int)
    (lambda precision : ℚ) (core : Spline2DCore → Int) :
    CallResult × Option Spline2DCore :=
  if lambda ≠ 0 then (.pyerr "Smoothing spline not yet implemented.", none)
  else
    let thetype := qspline2d_thetype t
    let instrides := convert_strides strideBytes (elsize thetype)
    let outstrides : List Int := [(N : Int), 1]
    let inv := qspline2d_invoke thetype lambda M N instrides outstrides precision
    let retval := core inv
    if retval = -3 then
      (.pyerr "Precision too high.  Error did not converge.", some inv)
    else if retval < 0 then
      (.pyerr "Problem occured inside routine", some inv)
    else
      (.ok 2 [M, N] thetype outstrides, some inv)

/- ------------------------------------------------------------------ -/
/- FIRsepsym2d, exported as sepfir2d (lines 141-220)                  -/
/- ------------------------------------------------------------------ -/

/-- Lines 150-151: promotion capped at `PyArray_CDOUBLE`. -/
def FIRsepsym2d_thetype (t : ElemType) : Nat :=
  cMIN (PyArray_ObjectType t.typeNum PyArray_FLOAT) PyArray_CDOUBLE

/-- Invocation record for the separable mirror-convolution cores:
`.S`, `.D`, `.C`, `.Z` name `S_/D_/C_/Z_separable_2Dconvolve_mirror`. -/
inductive FIRCore where
  | S (M N lenHrow lenHcol : Nat) (instrides outstrides : List Int)
  | D (M N lenHrow lenHcol : Nat) (instrides outstrides : List Int)
  | C (M N lenHrow lenHcol : Nat) (instrides outstrides : List Int)
  | Z (M N lenHrow lenHcol : Nat) (instrides outstrides : List Int)
deriving DecidableEq

/-- The `switch (thetype)` of lines 167-204: each of the four element
types dispatches to its convolution routine; the `default` branch raises
`"Incorrect type."`.  (The complex cases are guarded by `#ifdef __GNUC__`
in the C source; the module is built with GCC, as the spec's element-type
list assumes.) -/
def FIRsepsym2d_case (thetype : Nat) (M N lenHrow lenHcol : Nat)
    (instrides outstrides : List Int) : Except String FIRCore :=
  if thetype = PyArray_FLOAT then .ok (.S M N lenHrow lenHcol instrides outstrides)
  else if thetype = PyArray_DOUBLE then .ok (.D M N lenHrow lenHcol instrides outstrides)
  else if thetype = PyArray_CFLOAT then .ok (.C M N lenHrow lenHcol instrides outstrides)
  else if thetype = PyArray_CDOUBLE then .ok (.Z M N lenHrow lenHcol instrides outstrides)
  else .error "Incorrect type."

/-- `sepfir2d(image, hrow, hcol)` (lines 141-220) on an image of element
type `t`, shape `M x N`, coerced byte strides `strideBytes`, and kernels
of lengths `lenHrow`, `lenHcol`. -/
def FIRsepsym2d (t : ElemType) (M N : Nat) (strideBytes : List Int)
    (lenHrow lenHcol : Nat) (core : FIRCore → Int) :
    CallResult × Option FIRCore :=
  let thetype := FIRsepsym2d_thetype t
  let instrides := convert_strides strideBytes (elsize thetype)
  let outstrides : List Int := [(N : Int), 1]
  match FIRsepsym2d_case thetype M N lenHrow lenHcol instrides outstrides with
  | .error m => (.pyerr m, none)
  | .ok inv =>
    if core inv < 0 then (.pyerr "Problem occured inside routine.", some inv)
    else (.ok 2 [M, N] thetype outstrides, some inv)

/- ------------------------------------------------------------------ -/
/- IIRsymorder1, exported as symiirorder1 (lines 224-308)             -/
/- ------------------------------------------------------------------ -/

/-- Lines 236-237: promotion capped at `PyArray_CDOUBLE`. -/
def IIRsymorder1_thetype (t : ElemType) : Nat :=
  cMIN (PyArray_ObjectType t.typeNum PyArray_FLOAT) PyArray_CDOUBLE

/-- Invocation record for the order-1 symmetric IIR cores.  The real
routines `.S`/`.D` (`S_/D_IIR_forback1`) receive only the real parts
`rc0 = c0.real`, `rz1 = z1.real`; the complex routines `.C`/`.Z`
(`C_/Z_IIR_forback1`) receive the full complex gain and pole. -/
inductive IIR1Core where
  | S (rc0 rz1 : ℚ) (N : Nat) (instrides outstrides : Int) (precision : ℚ)
  | D (rc0 rz1 : ℚ) (N : Nat) (instrides outstrides : Int) (precision : ℚ)
  | C (zc0 zz1 : ℚ × ℚ) (N : Nat) (instrides outstrides : Int) (precision : ℚ)
  | Z (zc0 zz1 : ℚ × ℚ) (N : Nat) (instrides outstrides : Int) (precision : ℚ)
deriving DecidableEq

/-- The `switch (thetype)` of lines 249-296, including the per-branch
precision defaulting.  `c0` and `z1` are the parsed `Py_complex`
arguments as (real, imaginary) pairs. -/
def IIRsymorder1_case (thetype : Nat) (c0 z1 : ℚ × ℚ) (N : Nat)
    (instrides outstrides : Int) (precision : ℚ) : Except String IIR1Core :=
  if thetype = PyArray_FLOAT then
    .ok (.S c0.1 z1.1 N instrides outstrides
      (if precision ≤ 0 ∨ 1 < precision then 1/1000000 else precision))
  else if thetype = PyArray_DOUBLE then
    .ok (.D c0.1 z1.1 N instrides outstrides
      (if precision ≤ 0 ∨ 1 < precision then 1/100000000000 else precision))
  else if thetype = PyArray_CFLOAT then
    .ok (.C c0 z1 N instrides outstrides
      (if precision ≤ 0 ∨ 1 < precision then 1/1000000 else precision))
  else if thetype = PyArray_CDOUBLE then
    .ok (.Z c0 z1 N instrides outstrides
      (if precision ≤ 0 ∨ 1 < precision then 1/100000000000 else precision))
  else .error "Incorrect type."

/-- `symiirorder1(sig, c0, z1, precision=-1.0)` (lines 224-308) on a 1-D
signal of element type `t`, length `N`, coerced byte stride
`strideBytes`. -/
def IIRsymorder1 (t : ElemType) (N : Nat) (strideBytes : Int)
    (c0 z1 : ℚ × ℚ) (precision : ℚ) (core : IIR1Core → Int) :
    CallResult × Option IIR1Core :=
  let thetype := IIRsymorder1_thetype t
  let instrides := convert_stride1 strideBytes (elsize thetype)
  match IIRsymorder1_case thetype c0 z1 N instrides 1 precision with
  | .error m => (.pyerr m, none)
  | .ok inv =>
    if core inv < 0 then (.pyerr "Problem occured inside routine.", some inv)
    else (.ok 1 [N] thetype [1], some inv)

/- ------------------------------------------------------------------ -/
/- IIRsymorder2, exported as symiirorder2 (lines 313-365)             -/
/- ------------------------------------------------------------------ -/

/-- Lines 325-326: promotion capped at `PyArray_DOUBLE`.  Complex type
numbers are therefore capped down to `PyArray_DOUBLE` before dispatch. -/
def IIRsymorder2_thetype (t : ElemType) : Nat :=
  cMIN (PyArray_ObjectType t.typeNum PyArray_FLOAT) PyArray_DOUBLE

/-- Invocation record for the order-2 symmetric IIR cores
(`S_/D_IIR_forback2`): only real routines exist. -/
inductive IIR2Core where
  | S (r omega : ℚ) (N : Nat) (instrides outstrides : Int) (precision : ℚ)
  | D (r omega : ℚ) (N : Nat) (instrides outstrides : Int) (precision : ℚ)
deriving DecidableEq

/-- The `switch (thetype)` of lines 338-353 with its precision
defaulting; the `default` branch raises `"Incorrect type."`. -/
def IIRsymorder2_case (thetype : Nat) (r omega : ℚ) (N : Nat)
    (instrides outstrides : Int) (precision : ℚ) : Except String IIR2Core :=
  if thetype = PyArray_FLOAT then
    .ok (.S r omega N instrides outstrides
      (if precision ≤ 0 ∨ 1 < precision then 1/1000000 else precision))
  else if thetype = PyArray_DOUBLE then
    .ok (.D r omega N instrides outstrides
      (if precision ≤ 0 ∨ 1 < precision then 1/100000000000 else precision))
  else .error "Incorrect type."

/-- `symiirorder2(sig, r, omega, precision=-1.0)` (lines 313-365). -/
def IIRsymorder2 (t : ElemType) (N : Nat) (strideBytes : Int)
    (r omega precision : ℚ) (core : IIR2Core → Int) :
    CallResult × Option IIR2Core :=
  let thetype := IIRsymorder2_thetype t
  let instrides := convert_stride1 strideBytes (elsize thetype)
  match IIRsymorder2_case thetype r omega N instrides 1 precision with
  | .error m => (.pyerr m, none)
  | .ok inv =>
    if core inv < 0 then (.pyerr "Problem occured inside routine.", some inv)
    else (.ok 1 [N] thetype [1], some inv)

/- ------------------------------------------------------------------ -/
/- Buffer discipline of a wrapper call                                -/
/- ------------------------------------------------------------------ -/

/-- Modelled from the spec: the core filter routines
(`S_cubic_spline2D`, `D_IIR_forback1`, `S_separable_2Dconvolve_mirror`,
...) live in source files of this repository that are not among the
provided sources.  Per spec sections 5 and 7 they read the
caller-supplied input buffer and write only the separately allocated
output buffer, returning an integer status; a core is therefore modelled
as a pure function from the input contents to (status, output contents).
`coreCallFrame` is the data flow every wrapper shares: an optional entry
guard (e.g. qspline2d's lambda check), the core call on the input, and
the caller-side status-to-error mapping.  It returns the call's outcome
together with the input buffer as it stands after the call. -/
def coreCallFrame {α : Type} (guard : Option String)
    (core : List α → Int × List α) (statusErr : Int → Option String)
    (input : List α) : Except String (List α) × List α :=
  match guard with
  | some m => (.error m, input)
  | none =>
    let r := core input
    match statusErr r.1 with
    | some m => (.error m, input)
    | none => (.ok r.2, input)

/- ------------------------------------------------------------------ -/
/- Lemmas about convert_strides                                       -/
/- ------------------------------------------------------------------ -/

theorem bitshiftLoop_of_pos (n : Nat) (hn : 1 ≤ n) :
    ∀ acc : Int, bitshiftLoop n acc = acc + 1 + Nat.log2 n := by
  induction n using Nat.strong_induction_on with
  | _ n ih =>
    intro acc
    rw [bitshiftLoop]
    have hne : ¬n = 0 := by omega
    rw [dif_neg hne]
    by_cases h2 : 2 ≤ n
    · have hdiv : 1 ≤ n / 2 := by omega
      rw [ih (n / 2) (Nat.div_lt_self (by omega) (by norm_num)) hdiv (acc + 1)]
      have hlog : Nat.log2 n = Nat.log2 (n / 2) + 1 := by
        rw [Nat.log2]
        simp [h2]
      rw [hlog]
      push_cast
      ring
    · have h1 : n = 1 := by omega
      subst h1
      rw [bitshiftLoop]
      norm_num [Nat.log2]

theorem c_bitshift_eq_log2 (n : Nat) (hn : 1 ≤ n) : c_bitshift n = Nat.log2 n := by
  unfold c_bitshift
  rw [bitshiftLoop_of_pos n hn]
  ring

theorem c_bitshift_pow (b : Nat) : c_bitshift (2 ^ b) = b := by
  rw [c_bitshift_eq_log2 (2 ^ b) (Nat.one_le_two_pow), Nat.log2_eq_log_two,
    Nat.log_pow one_lt_two]

theorem convert_stride1_pow (b : Nat) (s : Int) (hd : (2 : Int) ^ b ∣ s) :
    convert_stride1 s (2 ^ b) = s / (2 : Int) ^ b := by
  obtain ⟨m, rfl⟩ := hd
  unfold convert_stride1 sar
  rw [c_bitshift_pow]
  rw [Int.toNat_natCast]
  rw [Int.mul_fdiv_cancel_left _ (by positivity), Int.mul_ediv_cancel_left _ (by positivity)]

/-- C10: for every element size that is a power of two (`size = 2^b`)
and every list of byte strides that are nonnegative multiples of `size`,
`convert_strides` divides each stride by `size`; for every positive
element size it shifts each stride right by `floor(log2 size)` bits,
which for a non-power-of-two size does not equal division by the size
(concretely, `size = 12` and stride `24` give `24 >> 3 = 3`, while
`24 / 12 = 2`). -/
theorem convert_strides_spec :
    (∀ (b : Nat) (l : List Int), (∀ s ∈ l, 0 ≤ s ∧ (2 : Int) ^ b ∣ s) →
      convert_strides l (2 ^ b) = l.map (fun s => s / (2 : Int) ^ b)) ∧
    (∀ size : Nat, 1 ≤ size →
      ∀ l : List Int, convert_strides l size = l.map (fun s => sar s (Nat.log2 size))) ∧
    (convert_strides [24] 12 = [3] ∧ (24 : Int) / 12 = 2 ∧ (3 : Int) ≠ 2) := by
  refine ⟨?_, ?_, ?_, by decide, by decide⟩
  · intro b l h
    unfold convert_strides
    exact List.map_congr_left fun s hs => convert_stride1_pow b s ((h s hs).2)
  · intro size hsz l
    unfold convert_strides convert_stride1
    refine List.map_congr_left fun s _ => ?_
    rw [c_bitshift_eq_log2 size hsz, Int.toNat_natCast]
  · have h12 : c_bitshift 12 = 3 := by
      rw [c_bitshift_eq_log2 12 (by norm_num)]
      simp [Nat.log2]
    simp [convert_strides, convert_stride1, sar, h12]

/-- Witness for `convert_strides_spec`: the power-of-two part applied at
`size = 4 = 2^2`, strides `[8, 12]`. -/
theorem convert_strides_spec_witness :
    convert_strides [8, 12] (2 ^ 2) = [(8 : Int) / 2 ^ 2, (12 : Int) / 2 ^ 2] :=
  convert_strides_spec.1 2 [8, 12] (by decide)

/- Concrete values of `c_bitshift` at the element sizes the wrappers use. -/

theorem c_bitshift_four : c_bitshift 4 = 2 := by
  have h := c_bitshift_pow 2
  norm_num at h
  exact h

theorem c_bitshift_eight : c_bitshift 8 = 3 := by
  have h := c_bitshift_pow 3
  norm_num at h
  exact h

theorem c_bitshift_sixteen : c_bitshift 16 = 4 := by
  have h := c_bitshift_pow 4
  norm_num at h
  exact h

/-- C1 counterexample: `cspline2d` called with nonzero `lambda = 1/2` on
a 2x2 float64 image does not fail with the "not implemented" condition —
it invokes the double-precision cubic-spline core with that lambda and
(when the core reports success) silently returns the coefficient
array. -/
theorem cspline2d_lambda_unchecked_cex :
    cspline2d ElemType.float64 2 2 [16, 8] (1/2) (1/1000000) (fun _ => 0) =
      (CallResult.ok 2 [2, 2] PyArray_DOUBLE [2, 1],
       some (Spline2DCore.D (1/2) 2 2 [2, 1] [2, 1] (1/1000000))) := by
  simp only [cspline2d, cspline2d_thetype, cspline2d_invoke, PyArray_ObjectType, cMIN,
    ElemType.typeNum, PyArray_FLOAT, PyArray_DOUBLE, elsize, convert_strides,
    convert_stride1, sar, c_bitshift_eight, List.map]
  norm_num [Int.fdiv_eq_ediv, c_bitshift_eight]
  decide

/-- C1 (amended): only `qspline2d` rejects a nonzero smoothing
parameter: it fails with the distinct "not implemented" error before the
core is consulted (the outcome is independent of the core and no core
invocation is recorded).  `cspline2d` performs no lambda check: it never
surfaces the "not implemented" condition and always passes the supplied
lambda through to the cubic-spline core. -/
theorem smoothing_guard_amended (t : ElemType) (M N : Nat) (sb : List Int)
    (lambda precision : ℚ) (core : Spline2DCore → Int) :
    (lambda ≠ 0 → qspline2d t M N sb lambda precision core =
      (.pyerr "Smoothing spline not yet implemented.", none)) ∧
    (cspline2d t M N sb lambda precision core).1 ≠
      .pyerr "Smoothing spline not yet implemented." ∧
    ((cspline2d t M N sb lambda precision core).2).map Spline2DCore.lambda =
      some lambda := by
  refine ⟨fun h => by simp [qspline2d, h], ?_, ?_⟩
  · unfold cspline2d
    dsimp only
    split
    · simp
    · split <;> simp
  · unfold cspline2d
    dsimp only
    have hlam : ∀ th i o,
        (cspline2d_invoke th lambda M N i o precision).lambda = lambda := by
      intro th i o
      unfold cspline2d_invoke
      split <;> rfl
    split
    · simp [hlam]
    · split <;> simp [hlam]

/-- Witness for `smoothing_guard_amended` at `lambda = 1/2`. -/
theorem smoothing_guard_amended_witness :
    qspline2d ElemType.float64 2 2 [16, 8] (1/2) (1/1000000) (fun _ => 0) =
      (.pyerr "Smoothing spline not yet implemented.", none) ∧
    (cspline2d ElemType.float64 2 2 [16, 8] (1/2) (1/1000000) (fun _ => 0)).1 ≠
      .pyerr "Smoothing spline not yet implemented." := by
  have h := smoothing_guard_amended ElemType.float64 2 2 [16, 8] (1/2) (1/1000000)
    (fun _ => 0)
  exact ⟨h.1 (by norm_num), h.2.1⟩

/-- C2 counterexample: a complex128 image given to `cspline2d` is
silently assigned the real working type `PyArray_DOUBLE` (the promotion
of lines 51-52 caps the type number at `PyArray_DOUBLE`), and the result
array is float64 — narrower than the complex input type. -/
theorem cspline2d_complex_narrowed_cex :
    (cspline2d ElemType.complex128 2 2 [16, 8] 0 (1/1000000) (fun _ => 0)).1 =
      CallResult.ok 2 [2, 2] PyArray_DOUBLE [2, 1] ∧
    isComplexNum ElemType.complex128.typeNum = true ∧
    isComplexNum PyArray_DOUBLE = false := by
  refine ⟨?_, by decide, by decide⟩
  simp only [cspline2d, cspline2d_thetype, cspline2d_invoke, PyArray_ObjectType, cMIN,
    ElemType.typeNum, PyArray_FLOAT, PyArray_DOUBLE, PyArray_CFLOAT, PyArray_CDOUBLE,
    elsize, convert_strides, convert_stride1, sar, c_bitshift_eight, List.map]
  norm_num [Int.fdiv_eq_ediv, c_bitshift_eight]

/-- C2 (amended): `sepfir2d` and `symiirorder1` (capped at
`PyArray_CDOUBLE`) never narrow — the working/result element type equals
the input element type for all four supported types.  `cspline2d`,
`qspline2d` and `symiirorder2` cap the working type at `PyArray_DOUBLE`,
so complex inputs are silently assigned a real float64 working type. -/
theorem type_promotion_amended :
    (∀ t : ElemType, FIRsepsym2d_thetype t = t.typeNum ∧
      IIRsymorder1_thetype t = t.typeNum) ∧
    (cspline2d_thetype .float32 = PyArray_FLOAT ∧
     cspline2d_thetype .float64 = PyArray_DOUBLE ∧
     cspline2d_thetype .complex64 = PyArray_DOUBLE ∧
     cspline2d_thetype .complex128 = PyArray_DOUBLE) ∧
    (qspline2d_thetype .float32 = PyArray_FLOAT ∧
     qspline2d_thetype .float64 = PyArray_DOUBLE ∧
     qspline2d_thetype .complex64 = PyArray_DOUBLE ∧
     qspline2d_thetype .complex128 = PyArray_DOUBLE) ∧
    (IIRsymorder2_thetype .float32 = PyArray_FLOAT ∧
     IIRsymorder2_thetype .float64 = PyArray_DOUBLE ∧
     IIRsymorder2_thetype .complex64 = PyArray_DOUBLE ∧
     IIRsymorder2_thetype .complex128 = PyArray_DOUBLE) := by
  refine ⟨fun t => ?_, by decide, by decide, by decide⟩
  cases t <;> exact ⟨rfl, rfl⟩

/-- C5 counterexample: `symiirorder2` on a complex128 signal does not
fail with an unsupported-element-type error: the type is capped to
`PyArray_DOUBLE` at entry, the real double-precision core
`D_IIR_forback2` is invoked, and a float64 result is returned. -/
theorem symiirorder2_complex_accepted_cex :
    IIRsymorder2 ElemType.complex128 4 8 (1/2) (1/3) (1/100) (fun _ => 0) =
      (CallResult.ok 1 [4] PyArray_DOUBLE [1],
       some (IIR2Core.D (1/2) (1/3) 4 1 1 (1/100))) := by
  simp only [IIRsymorder2, IIRsymorder2_thetype, IIRsymorder2_case, PyArray_ObjectType,
    cMIN, ElemType.typeNum, PyArray_FLOAT, PyArray_DOUBLE, PyArray_CFLOAT,
    PyArray_CDOUBLE, elsize, convert_stride1, sar, c_bitshift_eight]
  norm_num [Int.fdiv_eq_ediv, c_bitshift_eight]
  decide

/-- C5 (amended): complex element types never reach `symiirorder2`'s
`"Incorrect type."` branch; they are silently capped to the real
`PyArray_DOUBLE` working type and processed by the real order-2 filter.
No call with one of the four supported input types surfaces the
incorrect-type error. -/
theorem symiirorder2_complex_amended (t : ElemType) (N : Nat) (sb : Int)
    (r omega precision : ℚ) (core : IIR2Core → Int) :
    IIRsymorder2_thetype .complex64 = PyArray_DOUBLE ∧
    IIRsymorder2_thetype .complex128 = PyArray_DOUBLE ∧
    (IIRsymorder2 t N sb r omega precision core).1 ≠ .pyerr "Incorrect type." := by
  refine ⟨by decide, by decide, ?_⟩
  cases t <;>
    · simp only [IIRsymorder2, IIRsymorder2_thetype, IIRsymorder2_case,
        PyArray_ObjectType, cMIN, ElemType.typeNum, PyArray_FLOAT, PyArray_DOUBLE,
        PyArray_CFLOAT, PyArray_CDOUBLE]
      norm_num
      split <;> split <;> simp

/-- C6: the `switch` of `sepfir2d` dispatches each of the four element
types float32/float64/complex64/complex128 to the corresponding
separable mirror-convolution routine, the promoted type of each of the
four input types is that type itself, and any other type number falls
into the `"Incorrect type."` error branch. -/
theorem sepfir2d_dispatch (th M N lr lc : Nat) (instr outstr : List Int) :
    FIRsepsym2d_case PyArray_FLOAT M N lr lc instr outstr =
      .ok (.S M N lr lc instr outstr) ∧
    FIRsepsym2d_case PyArray_DOUBLE M N lr lc instr outstr =
      .ok (.D M N lr lc instr outstr) ∧
    FIRsepsym2d_case PyArray_CFLOAT M N lr lc instr outstr =
      .ok (.C M N lr lc instr outstr) ∧
    FIRsepsym2d_case PyArray_CDOUBLE M N lr lc instr outstr =
      .ok (.Z M N lr lc instr outstr) ∧
    (∀ t : ElemType, FIRsepsym2d_thetype t = t.typeNum) ∧
    (th ≠ PyArray_FLOAT → th ≠ PyArray_DOUBLE → th ≠ PyArray_CFLOAT →
      th ≠ PyArray_CDOUBLE →
      FIRsepsym2d_case th M N lr lc instr outstr = .error "Incorrect type.") := by
  refine ⟨rfl, rfl, rfl, rfl, fun t => ?_, fun h1 h2 h3 h4 => ?_⟩
  · cases t <;> rfl
  · simp [FIRsepsym2d_case, h1, h2, h3, h4]

/-- Witness for `sepfir2d_dispatch`: type number 3 (`PyArray_SHORT`)
falls into the incorrect-type branch. -/
theorem sepfir2d_dispatch_witness :
    FIRsepsym2d_case 3 2 2 3 3 [2, 1] [2, 1] = .error "Incorrect type." :=
  (sepfir2d_dispatch 3 2 2 3 3 [2, 1] [2, 1]).2.2.2.2.2
    (by decide) (by decide) (by decide) (by decide)

/-- C3 counterexample: a core status of `-3` from `symiirorder1` is
mapped to the generic internal-failure error (`IIRsymorder1` has only
the `ret < 0` check at line 298), not to the distinct
convergence-failure error. -/
theorem symiirorder1_neg3_generic_cex :
    (IIRsymorder1 ElemType.float64 4 8 (1, 0) (1/2, 0) (1/100) (fun _ => -3)).1 =
      CallResult.pyerr "Problem occured inside routine." ∧
    "Problem occured inside routine." ≠
      "Precision too high.  Error did not converge." := by
  refine ⟨?_, by decide⟩
  simp only [IIRsymorder1, IIRsymorder1_thetype, IIRsymorder1_case, PyArray_ObjectType,
    cMIN, ElemType.typeNum, PyArray_FLOAT, PyArray_DOUBLE, PyArray_CFLOAT,
    PyArray_CDOUBLE]
  norm_num

/-- C3 (amended): `cspline2d` and `qspline2d` map core status `-3` to
the distinct convergence-failure error, every other negative status to
the generic internal-failure error, and a nonnegative status to the
result array.  `symiirorder1` and `symiirorder2` map every negative
status — including `-3` — to the generic internal-failure error, and a
nonnegative status to the result array; the two error messages are
distinct. -/
theorem status_mapping_amended (t : ElemType) (M N : Nat) (sb : List Int)
    (lambda precision : ℚ) (sb1 : Int) (c0 z1 : ℚ × ℚ) (r omega : ℚ) (ret : Int) :
    (ret = -3 →
      (cspline2d t M N sb lambda precision (fun _ => ret)).1 =
        .pyerr "Precision too high.  Error did not converge." ∧
      (qspline2d t M N sb 0 precision (fun _ => ret)).1 =
        .pyerr "Precision too high.  Error did not converge.") ∧
    (ret < 0 → ret ≠ -3 →
      (cspline2d t M N sb lambda precision (fun _ => ret)).1 =
        .pyerr "Problem occured inside routine" ∧
      (qspline2d t M N sb 0 precision (fun _ => ret)).1 =
        .pyerr "Problem occured inside routine") ∧
    (0 ≤ ret →
      (cspline2d t M N sb lambda precision (fun _ => ret)).1 =
        .ok 2 [M, N] (cspline2d_thetype t) [(N : Int), 1] ∧
      (qspline2d t M N sb 0 precision (fun _ => ret)).1 =
        .ok 2 [M, N] (qspline2d_thetype t) [(N : Int), 1]) ∧
    (ret < 0 →
      (IIRsymorder1 t N sb1 c0 z1 precision (fun _ => ret)).1 =
        .pyerr "Problem occured inside routine." ∧
      (IIRsymorder2 t N sb1 r omega precision (fun _ => ret)).1 =
        .pyerr "Problem occured inside routine.") ∧
    (0 ≤ ret →
      (IIRsymorder1 t N sb1 c0 z1 precision (fun _ => ret)).1 =
        .ok 1 [N] (IIRsymorder1_thetype t) [1] ∧
      (IIRsymorder2 t N sb1 r omega precision (fun _ => ret)).1 =
        .ok 1 [N] (IIRsymorder2_thetype t) [1]) ∧
    "Problem occured inside routine." ≠
      "Precision too high.  Error did not converge." := by
  refine ⟨fun h3 => ?_, fun hneg hne => ?_, fun hpos => ?_, fun hneg => ?_,
    fun hpos => ?_, by decide⟩
  · subst h3
    constructor <;> simp [cspline2d, qspline2d]
  · constructor <;> simp [cspline2d, qspline2d, hneg, hne]
  · have h1 : ¬ret = -3 := by omega
    have h2 : ¬ret < 0 := by omega
    constructor <;> simp [cspline2d, qspline2d, h1, h2]
  · cases t <;> constructor <;>
      simp [IIRsymorder1, IIRsymorder2, IIRsymorder1_thetype, IIRsymorder2_thetype,
        IIRsymorder1_case, IIRsymorder2_case, PyArray_ObjectType, cMIN,
        ElemType.typeNum, PyArray_FLOAT, PyArray_DOUBLE, PyArray_CFLOAT,
        PyArray_CDOUBLE, hneg]
  · have h2 : ¬ret < 0 := by omega
    cases t <;> constructor <;>
      simp [IIRsymorder1, IIRsymorder2, IIRsymorder1_thetype, IIRsymorder2_thetype,
        IIRsymorder1_case, IIRsymorder2_case, PyArray_ObjectType, cMIN,
        ElemType.typeNum, PyArray_FLOAT, PyArray_DOUBLE, PyArray_CFLOAT,
        PyArray_CDOUBLE, h2]

/-- Witness for `status_mapping_amended` at concrete status codes `-3`,
`-1` and `0`. -/
theorem status_mapping_amended_witness :
    (cspline2d ElemType.float64 2 2 [16, 8] 0 (1/2) (fun _ => -3)).1 =
      .pyerr "Precision too high.  Error did not converge." ∧
    (cspline2d ElemType.float64 2 2 [16, 8] 0 (1/2) (fun _ => -1)).1 =
      .pyerr "Problem occured inside routine" ∧
    (IIRsymorder1 ElemType.float64 2 8 (1, 0) (0, 0) (1/2) (fun _ => -3)).1 =
      .pyerr "Problem occured inside routine." ∧
    (IIRsymorder2 ElemType.float64 2 8 (1/2) (1/3) (1/2) (fun _ => 0)).1 =
      .ok 1 [2] (IIRsymorder2_thetype ElemType.float64) [1] := by
  have hA := status_mapping_amended ElemType.float64 2 2 [16, 8] 0 (1/2) 8 (1, 0)
    (0, 0) (1/2) (1/3) (-3)
  have hB := status_mapping_amended ElemType.float64 2 2 [16, 8] 0 (1/2) 8 (1, 0)
    (0, 0) (1/2) (1/3) (-1)
  have hC := status_mapping_amended ElemType.float64 2 2 [16, 8] 0 (1/2) 8 (1, 0)
    (0, 0) (1/2) (1/3) 0
  exact ⟨(hA.1 rfl).1, (hB.2.1 (by norm_num) (by norm_num)).1,
    (hA.2.2.2.1 (by norm_num)).1, (hC.2.2.2.2.1 (by norm_num)).2⟩

/-- C4: for any supplied precision outside `(0, 1]` (so in particular
the omitted-argument sentinel `-1.0`), each wrapper substitutes its
type-dependent default in the core invocation: `1e-3`/`1e-6`
(float/double) for `cspline2d` and `qspline2d`, `1e-6`/`1e-11` for
`symiirorder1` and `symiirorder2`; the double defaults are finer than
the single ones and the defaults differ between the spline wrappers and
the symmetric-IIR wrappers. -/
theorem precision_defaults (p : ℚ) (hp : p ≤ 0 ∨ 1 < p) (lambda : ℚ) (M N : Nat)
    (instr outstr : List Int) (c0 z1 : ℚ × ℚ) (i o : Int) (r omega : ℚ) :
    cspline2d_invoke PyArray_FLOAT lambda M N instr outstr p =
      .S lambda M N instr outstr (1/1000) ∧
    cspline2d_invoke PyArray_DOUBLE lambda M N instr outstr p =
      .D lambda M N instr outstr (1/1000000) ∧
    qspline2d_invoke PyArray_FLOAT lambda M N instr outstr p =
      .S lambda M N instr outstr (1/1000) ∧
    qspline2d_invoke PyArray_DOUBLE lambda M N instr outstr p =
      .D lambda M N instr outstr (1/1000000) ∧
    IIRsymorder1_case PyArray_FLOAT c0 z1 N i o p =
      .ok (.S c0.1 z1.1 N i o (1/1000000)) ∧
    IIRsymorder1_case PyArray_DOUBLE c0 z1 N i o p =
      .ok (.D c0.1 z1.1 N i o (1/100000000000)) ∧
    IIRsymorder2_case PyArray_FLOAT r omega N i o p =
      .ok (.S r omega N i o (1/1000000)) ∧
    IIRsymorder2_case PyArray_DOUBLE r omega N i o p =
      .ok (.D r omega N i o (1/100000000000)) ∧
    ((1/1000000 : ℚ) < 1/1000 ∧ (1/100000000000 : ℚ) < 1/1000000) ∧
    ((1/1000 : ℚ) ≠ 1/1000000 ∧ (1/1000000 : ℚ) ≠ 1/100000000000) := by
  refine ⟨?_, ?_, ?_, ?_, ?_, ?_, ?_, ?_, by norm_num, by norm_num⟩ <;>
    simp [cspline2d_invoke, qspline2d_invoke, IIRsymorder1_case, IIRsymorder2_case,
      PyArray_FLOAT, PyArray_DOUBLE, hp]

/-- Witness for `precision_defaults` at the sentinel `p = -1`. -/
theorem precision_defaults_witness :
    cspline2d_invoke PyArray_FLOAT 0 2 2 [2, 1] [2, 1] (-1) =
      .S 0 2 2 [2, 1] [2, 1] (1/1000) ∧
    IIRsymorder1_case PyArray_DOUBLE (1, 0) (0, 0) 2 1 1 (-1) =
      .ok (.D 1 0 2 1 1 (1/100000000000)) ∧
    IIRsymorder2_case PyArray_FLOAT (1/2) (1/3) 2 1 1 (-1) =
      .ok (.S (1/2) (1/3) 2 1 1 (1/1000000)) := by
  have h := precision_defaults (-1) (Or.inl (by norm_num)) 0 2 2 [2, 1] [2, 1]
    (1, 0) (0, 0) 1 1 (1/2) (1/3)
  exact ⟨h.1, h.2.2.2.2.2.1, h.2.2.2.2.2.2.1⟩

/-- C7: on success every wrapper returns a freshly allocated array
(`PyArray_FromDims`) with exactly the coerced input's dimensions —
`2`-D `M x N` for the spline and separable-FIR wrappers, `1`-D length
`N` for the symmetric-IIR wrappers — and contiguous row-major element
strides (`[N, 1]` resp. `[1]`); concretely, `qspline2d` on a 2x2
float64 image with `lambda = 0` and `precision = 1e-6`, with the core
reporting status `0`, returns a 2x2 float64 array. -/
theorem shape_preservation (t : ElemType) (M N : Nat) (sb : List Int)
    (lambda precision : ℚ) (sb1 : Int) (c0 z1 : ℚ × ℚ) (r omega : ℚ)
    (lr lc : Nat) :
    (cspline2d t M N sb lambda precision (fun _ => 0)).1 =
      .ok 2 [M, N] (cspline2d_thetype t) [(N : Int), 1] ∧
    (qspline2d t M N sb 0 precision (fun _ => 0)).1 =
      .ok 2 [M, N] (qspline2d_thetype t) [(N : Int), 1] ∧
    (FIRsepsym2d t M N sb lr lc (fun _ => 0)).1 =
      .ok 2 [M, N] (FIRsepsym2d_thetype t) [(N : Int), 1] ∧
    (IIRsymorder1 t N sb1 c0 z1 precision (fun _ => 0)).1 =
      .ok 1 [N] (IIRsymorder1_thetype t) [1] ∧
    (IIRsymorder2 t N sb1 r omega precision (fun _ => 0)).1 =
      .ok 1 [N] (IIRsymorder2_thetype t) [1] ∧
    qspline2d ElemType.float64 2 2 [16, 8] 0 (1/1000000) (fun _ => 0) =
      (.ok 2 [2, 2] PyArray_DOUBLE [2, 1],
       some (.D 0 2 2 [2, 1] [2, 1] (1/1000000))) := by
  refine ⟨?_, ?_, ?_, ?_, ?_, ?_⟩
  · simp [cspline2d]
  · simp [qspline2d]
  · cases t <;>
      simp [FIRsepsym2d, FIRsepsym2d_thetype, FIRsepsym2d_case, PyArray_ObjectType,
        cMIN, ElemType.typeNum, PyArray_FLOAT, PyArray_DOUBLE, PyArray_CFLOAT,
        PyArray_CDOUBLE]
  · cases t <;>
      simp [IIRsymorder1, IIRsymorder1_thetype, IIRsymorder1_case, PyArray_ObjectType,
        cMIN, ElemType.typeNum, PyArray_FLOAT, PyArray_DOUBLE, PyArray_CFLOAT,
        PyArray_CDOUBLE]
  · cases t <;>
      simp [IIRsymorder2, IIRsymorder2_thetype, IIRsymorder2_case, PyArray_ObjectType,
        cMIN, ElemType.typeNum, PyArray_FLOAT, PyArray_DOUBLE, PyArray_CFLOAT,
        PyArray_CDOUBLE]
  · simp only [qspline2d, qspline2d_thetype, qspline2d_invoke, PyArray_ObjectType,
      cMIN, ElemType.typeNum, PyArray_FLOAT, PyArray_DOUBLE, elsize, convert_strides,
      convert_stride1, sar, c_bitshift_eight, List.map]
    norm_num [Int.fdiv_eq_ediv, c_bitshift_eight]
    decide

/-- C8: for real-typed input, `symiirorder1` passes only the real parts
of the complex-valued gain `c0` and pole `z1` to the (real) core and the
result type is the real input type; for complex-typed input the full
complex values are passed to the complex core and the result type is the
complex input type. -/
theorem symiirorder1_real_parts (c0 z1 : ℚ × ℚ) (N : Nat) (sb : Int) (p : ℚ) :
    IIRsymorder1 .float32 N sb c0 z1 p (fun _ => 0) =
      (.ok 1 [N] PyArray_FLOAT [1],
       some (.S c0.1 z1.1 N (convert_stride1 sb 4) 1
         (if p ≤ 0 ∨ 1 < p then 1/1000000 else p))) ∧
    IIRsymorder1 .float64 N sb c0 z1 p (fun _ => 0) =
      (.ok 1 [N] PyArray_DOUBLE [1],
       some (.D c0.1 z1.1 N (convert_stride1 sb 8) 1
         (if p ≤ 0 ∨ 1 < p then 1/100000000000 else p))) ∧
    IIRsymorder1 .complex64 N sb c0 z1 p (fun _ => 0) =
      (.ok 1 [N] PyArray_CFLOAT [1],
       some (.C c0 z1 N (convert_stride1 sb 8) 1
         (if p ≤ 0 ∨ 1 < p then 1/1000000 else p))) ∧
    IIRsymorder1 .complex128 N sb c0 z1 p (fun _ => 0) =
      (.ok 1 [N] PyArray_CDOUBLE [1],
       some (.Z c0 z1 N (convert_stride1 sb 16) 1
         (if p ≤ 0 ∨ 1 < p then 1/100000000000 else p))) := by
  refine ⟨?_, ?_, ?_, ?_⟩ <;>
    simp [IIRsymorder1, IIRsymorder1_thetype, IIRsymorder1_case, PyArray_ObjectType,
      cMIN, ElemType.typeNum, PyArray_FLOAT, PyArray_DOUBLE, PyArray_CFLOAT,
      PyArray_CDOUBLE, elsize]

/-- C9: the wrapper-level data flow never writes into the
caller-supplied input buffer: on the guard-failure path, on every
status-failure path, and on success, the input contents after the call
equal the input contents before it, the result being produced in the
separately allocated output buffer. -/
theorem input_buffer_preserved {α : Type} (guard : Option String)
    (core : List α → Int × List α) (statusErr : Int → Option String)
    (input : List α) :
    (coreCallFrame guard core statusErr input).2 = input := by
  unfold coreCallFrame
  cases guard with
  | some m => rfl
  | none =>
    dsimp only
    cases statusErr (core input).1 <;> rfl

end SplineModule
